import Mathlib

/-!
Verification of the InversifyJS container facade (`src/container/container.ts`)
against its specification.  The container source is embedded shallowly; the
collaborators that the container orchestrates (the `Lookup` binding registry,
the `Binding` record, the planner and the resolver) are not part of the
source tree and are modelled from the specification, as indicated on each
definition.
-/

namespace Inversify

/-- A service identifier: an opaque key with equality by value. -/
abbrev ServiceId := String

/-- A resolved value.  Construction strategies beyond constants are not
exercised by the registry-level properties verified here, so values are
opaque strings. -/
abbrev Value := String

/-- Binding scopes (`BindingScopeEnum`); the spec's data model also lists a
Request scope handled by the resolver. -/
inductive Scope where
  | singleton
  | transient
  | request
deriving DecidableEq, Repr

/-- Modelled from the spec: a binding's construction strategy.  A freshly
created binding is unconfigured until the fluent syntax (outside the source
tree) assigns one; constant strategies suffice for the matching, ordering
and cardinality properties verified here. -/
inductive Strategy where
  | unconfigured
  | toConstantValue (v : Value)
deriving DecidableEq, Repr

/-- Modelled from the spec: the target descriptor produced by
`createMockRequest(serviceIdentifier, key, value)` — the requested
identifier plus at most one tag (key/value pair). -/
structure MockRequest where
  serviceIdentifier : ServiceId
  tag : Option (String × String)
deriving DecidableEq, Repr

/-- Modelled from the spec: a binding's constraint, as a predicate over the
requested target.  A binding with no declared constraints matches any
target; a tagged constraint requires the target to carry that exact
key/value tag; `never` is a constraint no flat-tagged target satisfies. -/
inductive ConstraintSpec where
  | always
  | taggedWith (key : String) (value : String)
  | never
deriving DecidableEq, Repr

/-- Modelled from the spec: evaluation of a constraint against a target. -/
def ConstraintSpec.eval : ConstraintSpec → MockRequest → Bool
  | .always, _ => true
  | .never, _ => false
  | .taggedWith k v, r => r.tag == some (k, v)

/-- Modelled from the spec: the Binding Record — identifier, scope,
construction strategy, constraint, and the module-origin tag used by
`unload`.  The lazily populated singleton cache is owned by the resolver
and is not observed by any registry-level property, so it is not carried
here. -/
structure Binding where
  serviceIdentifier : ServiceId
  scope : Scope
  strategy : Strategy
  constraint : ConstraintSpec
  moduleId : Option String
deriving DecidableEq, Repr

/-- Modelled from the spec: `Binding.clone` produces a record with identical
identifier/scope/strategy/constraint (and origin tag); only the instance
cache — not modelled here — is cleared. -/
def Binding.clone (b : Binding) : Binding :=
  { serviceIdentifier := b.serviceIdentifier
    scope := b.scope
    strategy := b.strategy
    constraint := b.constraint
    moduleId := b.moduleId }

/-- The error kinds of the error-handling design (the source throws `Error`
values carrying distinguished messages from `error_msgs`). -/
inductive ContainerError where
  | notFound (id : ServiceId)
  | ambiguousMatch (id : ServiceId)
  | cannotUnbind (id : ServiceId)
  | invalidMiddlewareReturn
  | noMoreSnapshots
  | optionsMustBeObject
  | optionsInvalidDefaultScope
  | invalidBinding (id : ServiceId)
deriving DecidableEq, Repr

/-- The registry's association list: service identifier to ordered list of
bindings, key insertion order preserved. -/
abbrev Entries := List (ServiceId × List Binding)

/-- First-match lookup of a key among the registry entries. -/
def entriesFind : Entries → ServiceId → Option (List Binding)
  | [], _ => none
  | e :: rest, id => if e.1 = id then some e.2 else entriesFind rest id

/-- Appending a binding to the list stored under a key, creating the entry at
the end if the key is absent. -/
def addEntries : Entries → ServiceId → Binding → Entries
  | [], id, b => [(id, [b])]
  | e :: rest, id, b =>
    if e.1 = id then (e.1, e.2 ++ [b]) :: rest else e :: addEntries rest id b

/-- Modelled from the spec: the `Lookup` binding registry — a multi-map from
service identifier to ordered list of Binding Records, insertion order
preserved. -/
structure Lookup where
  entries : Entries
deriving DecidableEq, Repr

/-- The empty registry (`new Lookup()`). -/
def Lookup.empty : Lookup := ⟨[]⟩

/-- Modelled from the spec: `add(id, binding)` appends to the ordered list
for `id`, creating the list if absent; never fails. -/
def Lookup.add (lk : Lookup) (id : ServiceId) (b : Binding) : Lookup :=
  ⟨addEntries lk.entries id b⟩

/-- Modelled from the spec: `get(id)` returns the ordered list for `id` and
fails with `NotFoundError` if `id` is absent. -/
def Lookup.get (lk : Lookup) (id : ServiceId) : Except ContainerError (List Binding) :=
  match entriesFind lk.entries id with
  | some l => .ok l
  | none => .error (.notFound id)

/-- The list stored under a key, empty when the key is absent; this is how
the planner gathers candidates at one container level. -/
def Lookup.getOrEmpty (lk : Lookup) (id : ServiceId) : List Binding :=
  (entriesFind lk.entries id).getD []

/-- Modelled from the spec: `hasKey(id)` is an existence check on the key
and never fails. -/
def Lookup.hasKey (lk : Lookup) (id : ServiceId) : Bool :=
  (entriesFind lk.entries id).isSome

/-- Modelled from the spec: `remove(id)` deletes the entire list for `id`
and fails with `NotFoundError` if `id` is absent. -/
def Lookup.remove (lk : Lookup) (id : ServiceId) : Except ContainerError Lookup :=
  if lk.hasKey id then .ok ⟨lk.entries.filter (fun e => decide (e.1 ≠ id))⟩
  else .error (.notFound id)

/-- Modelled from the spec: `removeByCondition(predicate)` removes, across
all keys, every binding satisfied by the predicate; keys whose list becomes
empty are emptied but not deleted. -/
def Lookup.removeByCondition (lk : Lookup) (p : Binding → Bool) : Lookup :=
  ⟨lk.entries.map (fun e => (e.1, e.2.filter (fun b => !(p b))))⟩

/-- Modelled from the spec: `traverse` visits every key in insertion order
with its list; exposed here as the entry list itself. -/
def Lookup.traverse (lk : Lookup) : Entries := lk.entries

/-- Modelled from the spec: `clone()` deep-copies the registry, cloning
every contained binding. -/
def Lookup.clone (lk : Lookup) : Lookup :=
  ⟨lk.entries.map (fun e => (e.1, e.2.map Binding.clone))⟩

/-- The keys of a registry, in insertion order. -/
def Lookup.keys (lk : Lookup) : List ServiceId := lk.entries.map Prod.fst

/-- A registry is well-keyed when every stored binding sits under its own
service identifier — the invariant every registration path of the container
maintains, since `add` is always called with the binding's identifier. -/
def Lookup.wellKeyed (lk : Lookup) : Prop :=
  ∀ e ∈ lk.entries, ∀ b ∈ e.2, b.serviceIdentifier = e.1

/-- Target types (`TargetTypeEnum`); every container accessor requests a
`Variable` target. -/
inductive TargetType where
  | constructorArgument
  | classProperty
  | targetVariable
deriving DecidableEq, Repr

/-- The outcome of a get-style call: `T` for single-result accessors,
`T[]` for the `getAll*` accessors. -/
inductive GetResult where
  | single (v : Value)
  | multi (vs : List Value)
deriving DecidableEq, Repr

/-- Modelled from the spec: the root Resolution Context the planner hands to
the resolver — the requested multiplicity together with the matched
bindings of the root node, in selection order. -/
structure PlanContext where
  isMultiInject : Bool
  bindings : List Binding

/-- The request bundle (`interfaces.NextArgs`) handed to the middleware
chain or to `_planAndResolve`. -/
structure NextArgs where
  avoidConstraints : Bool
  contextInterceptor : PlanContext → PlanContext
  isMultiInject : Bool
  key : Option String
  serviceIdentifier : ServiceId
  targetType : TargetType
  value : Option String

/-- An installed middleware chain (`interfaces.Next`): it receives the
request bundle and returns the call's result, `none` standing for the
absent (`null`/`undefined`) return the source rejects. -/
abbrev Middleware := NextArgs → Option GetResult

/-- Container options: the configured default binding scope. -/
structure ContainerOptions where
  defaultScope : Scope
deriving DecidableEq, Repr

/-- A snapshot: the pair `ContainerSnapshot.of(bindings, middleware)`. -/
structure Snapshot where
  bindings : Lookup
  middleware : Option Middleware

/-- The container state: options, binding registry, snapshot stack (head is
the most recent snapshot), optional middleware chain, optional parent. -/
inductive Container : Type where
  | mk (options : ContainerOptions) (bindingDictionary : Lookup)
       (snapshots : List Snapshot) (middleware : Option Middleware)
       (parent : Option Container) : Container

def Container.options : Container → ContainerOptions
  | .mk o _ _ _ _ => o

def Container.bindingDictionary : Container → Lookup
  | .mk _ d _ _ _ => d

def Container.snapshots : Container → List Snapshot
  | .mk _ _ s _ _ => s

def Container.middleware : Container → Option Middleware
  | .mk _ _ _ m _ => m

def Container.parent : Container → Option Container
  | .mk _ _ _ _ p => p

/-- Replacing the binding registry (`this._bindingDictionary = ...`). -/
def Container.withDictionary : Container → Lookup → Container
  | .mk o _ s m p, d => .mk o d s m p

/-- The raw `containerOptions` constructor argument as JavaScript sees it:
absent (`undefined`), not an object, or an object whose `defaultScope`
field is absent or holds some string value. -/
inductive RawOptions where
  | notAnObject
  | obj (defaultScope : Option String)
deriving DecidableEq, Repr

/-- `new Container(containerOptions?)`: rejects a non-object argument, then
an absent `defaultScope`, then a `defaultScope` other than the `Singleton`
or `Transient` enum values; with no argument the default scope is
`Transient`. -/
def Container.create : Option RawOptions → Except ContainerError Container
  | none => .ok (.mk ⟨Scope.transient⟩ Lookup.empty [] none none)
  | some .notAnObject => .error .optionsMustBeObject
  | some (.obj none) => .error .optionsInvalidDefaultScope
  | some (.obj (some s)) =>
    if s = "Singleton" then .ok (.mk ⟨Scope.singleton⟩ Lookup.empty [] none none)
    else if s = "Transient" then .ok (.mk ⟨Scope.transient⟩ Lookup.empty [] none none)
    else .error .optionsInvalidDefaultScope

/-- `bind(serviceIdentifier)`: creates a binding with the container's
default scope and registers it; the returned binding stands for the
`BindingToSyntax` wrapper handed back to the caller. -/
def Container.bind (c : Container) (id : ServiceId) : Container × Binding :=
  let defaultScope := Scope.transient
  let ds := if c.options.defaultScope = defaultScope then defaultScope else Scope.singleton
  let binding : Binding :=
    { serviceIdentifier := id, scope := ds, strategy := .unconfigured
      constraint := .always, moduleId := none }
  (c.withDictionary (c.bindingDictionary.add id binding), binding)

/-- `unbind(serviceIdentifier)`: removes the whole entry; a failing registry
removal is rethrown as the cannot-unbind error naming the identifier. -/
def Container.unbind (c : Container) (id : ServiceId) : Except ContainerError Container :=
  match c.bindingDictionary.remove id with
  | .ok d => .ok (c.withDictionary d)
  | .error _ => .error (.cannotUnbind id)

/-- `unbindAll()`: replaces the registry with a fresh empty one. -/
def Container.unbindAll (c : Container) : Container :=
  c.withDictionary Lookup.empty

/-- `isBound(serviceIdentifier)`: delegates to the registry's key-existence
check. -/
def Container.isBound (c : Container) (id : ServiceId) : Bool :=
  c.bindingDictionary.hasKey id

/-- The reserved tag key (`METADATA_KEY.NAMED_TAG`). -/
def namedTag : String := "named"

/-- Builds the target descriptor, attaching the tag when a key/value pair is
supplied (`createMockRequest`, modelled from the spec's Target Descriptor). -/
def createMockRequest (id : ServiceId) (key value : Option String) : MockRequest :=
  { serviceIdentifier := id
    tag := match key, value with
           | some k, some v => some (k, v)
           | _, _ => none }

/-- `isBoundTagged(serviceIdentifier, key, value)`: fetches the binding list
with the registry's failing `get`, then probes the flat-tag constraint of
each binding against a mock request. -/
def Container.isBoundTagged (c : Container) (id : ServiceId) (key value : String) :
    Except ContainerError Bool :=
  match c.bindingDictionary.get id with
  | .error e => .error e
  | .ok bindings =>
    let request := createMockRequest id (some key) (some value)
    .ok (bindings.any fun b => b.constraint.eval request)

/-- `isBoundNamed(serviceIdentifier, named)`: tagged probe on the reserved
named tag. -/
def Container.isBoundNamed (c : Container) (id : ServiceId) (named : String) :
    Except ContainerError Bool :=
  c.isBoundTagged id namedTag named

/-- `snapshot()`: pushes the pair of a registry clone and the current
middleware onto the snapshot stack. -/
def Container.snapshot : Container → Container
  | .mk o d s m p => .mk o d (⟨d.clone, m⟩ :: s) m p

/-- `restore()`: fails when the stack is empty, otherwise pops the most
recent snapshot and reinstates its registry and middleware. -/
def Container.restore : Container → Except ContainerError Container
  | .mk _ _ [] _ _ => .error .noMoreSnapshots
  | .mk o _ (snap :: rest) _ p => .ok (.mk o snap.bindings rest snap.middleware p)

/-- `createChild()`: a fresh default container whose parent is this one. -/
def Container.createChild (c : Container) : Container :=
  .mk ⟨Scope.transient⟩ Lookup.empty [] none (some c)

/-- A container module: its guid and the service identifiers its `registry`
callback binds through the module-tagging bind function.  Modelled from the
spec: the callback itself is arbitrary registration code, represented by
the list of identifiers it registers. -/
structure ContainerModule where
  guid : String
  registrations : List ServiceId
deriving DecidableEq, Repr

/-- The module-tagging bind used by `load`: the source mutates the
just-registered binding's `moduleId` through the shared reference, so the
registry ends up holding the tagged binding. -/
def Container.bindWithModule (c : Container) (moduleId : String) (id : ServiceId) : Container :=
  let defaultScope := Scope.transient
  let ds := if c.options.defaultScope = defaultScope then defaultScope else Scope.singleton
  let binding : Binding :=
    { serviceIdentifier := id, scope := ds, strategy := .unconfigured
      constraint := .always, moduleId := some moduleId }
  c.withDictionary (c.bindingDictionary.add id binding)

/-- `load(...modules)`: runs each module's registry callback with the bind
function that tags registrations with the module's guid. -/
def Container.load (c : Container) (modules : List ContainerModule) : Container :=
  modules.foldl
    (fun acc m => m.registrations.foldl (fun acc2 id => acc2.bindWithModule m.guid id) acc) c

/-- `unload(...modules)`: removes, per module, every binding whose
`moduleId` equals the module's guid. -/
def Container.unload (c : Container) (modules : List ContainerModule) : Container :=
  modules.foldl
    (fun acc m =>
      acc.withDictionary
        (acc.bindingDictionary.removeByCondition (fun item => item.moduleId == some m.guid)))
    c

/-- `Container.merge`: copies both source registries into a fresh
container's registry by re-adding a clone of every binding under its
service identifier, first container first (the parameter keeps the
source's spelling). -/
def copyDictionary (origing destination : Lookup) : Lookup :=
  origing.traverse.foldl
    (fun dest e => e.2.foldl (fun d b => d.add b.serviceIdentifier b.clone) dest)
    destination

/-- `static merge(container1, container2)`: a new container whose registry
receives the clones of container1's bindings and then container2's. -/
def Container.merge (c1 c2 : Container) : Container :=
  let d1 := copyDictionary c1.bindingDictionary Lookup.empty
  let d2 := copyDictionary c2.bindingDictionary d1
  .mk ⟨Scope.transient⟩ d2 [] none none

/-- Modelled from the spec: the planner's candidate selection at one
container level — the list stored under the identifier, filtered by
constraint evaluation unless `avoidConstraints` bypasses tag filtering
entirely. -/
def localMatches (dict : Lookup) (avoid : Bool) (target : MockRequest) (id : ServiceId) :
    List Binding :=
  let candidates := dict.getOrEmpty id
  if avoid then candidates else candidates.filter (fun b => b.constraint.eval target)

/-- Modelled from the spec: the planner's lookup walk — candidates of the
local registry, repeating the lookup against the parent chain only when no
binding matches locally. -/
def getActiveBindings (avoid : Bool) (target : MockRequest) (id : ServiceId) :
    Container → List Binding
  | .mk _ dict _ _ none => localMatches dict avoid target id
  | .mk _ dict _ _ (some p) =>
    let m := localMatches dict avoid target id
    if m.isEmpty then getActiveBindings avoid target id p else m

/-- Modelled from the spec: whether the identifier is registered (its key
exists) anywhere in the container's parent chain. -/
def registeredInChain (id : ServiceId) : Container → Bool
  | .mk _ dict _ _ none => dict.hasKey id
  | .mk _ dict _ _ (some p) => dict.hasKey id || registeredInChain id p

/-- Whether no binding matches the request at any level of the parent
chain: every level's filtered candidate list is empty. -/
def noMatchInChain (avoid : Bool) (target : MockRequest) (id : ServiceId) : Container → Bool
  | .mk _ dict _ _ none => (localMatches dict avoid target id).isEmpty
  | .mk _ dict _ _ (some p) =>
    (localMatches dict avoid target id).isEmpty && noMatchInChain avoid target id p

/-- Modelled from the spec: `plan` — builds the root target, selects the
active bindings over the parent chain, applies the cardinality policy
(ambiguous when several match a single-result request; not-found when none
match a single-result request or when a multi-result request's identifier
is registered nowhere in the chain; an empty match list is allowed for a
registered multi-result request), and returns the root Resolution
Context. -/
def plan (c : Container) (isMultiInject : Bool) (_targetType : TargetType) (id : ServiceId)
    (key value : Option String) (avoidConstraints : Bool) :
    Except ContainerError PlanContext :=
  let target := createMockRequest id key value
  let matched := getActiveBindings avoidConstraints target id c
  if matched.isEmpty then
    if isMultiInject && registeredInChain id c then .ok ⟨isMultiInject, []⟩
    else .error (.notFound id)
  else if 1 < matched.length && !isMultiInject then .error (.ambiguousMatch id)
  else .ok ⟨isMultiInject, matched⟩

/-- Modelled from the spec: materialising one binding — a constant strategy
yields its value; an unconfigured binding cannot be resolved. -/
def resolveBinding (b : Binding) : Except ContainerError Value :=
  match b.strategy with
  | .toConstantValue v => .ok v
  | .unconfigured => .error (.invalidBinding b.serviceIdentifier)

/-- Modelled from the spec: the resolver materialises each matched binding
independently, in the planner's selection order, propagating the first
failure. -/
def resolveAll : List Binding → Except ContainerError (List Value)
  | [] => .ok []
  | b :: rest =>
    match resolveBinding b with
    | .error e => .error e
    | .ok v =>
      match resolveAll rest with
      | .error e => .error e
      | .ok vs => .ok (v :: vs)

/-- Modelled from the spec: `resolve(context)` — an ordered sequence for a
multi-inject context, the single matched binding's value otherwise (the
planner guarantees exactly one matched binding in that case, so the list
head default is never reached). -/
def resolve (ctx : PlanContext) : Except ContainerError GetResult :=
  match resolveAll ctx.bindings with
  | .error e => .error e
  | .ok vs =>
    if ctx.isMultiInject then .ok (.multi vs) else .ok (.single (vs.headD ""))

/-- `_planAndResolve()`: links the planner with the resolver, applying the
request's context interceptor between the two. -/
def Container.planAndResolve (c : Container) (args : NextArgs) :
    Except ContainerError GetResult :=
  match plan c args.isMultiInject args.targetType args.serviceIdentifier
      args.key args.value args.avoidConstraints with
  | .error e => .error e
  | .ok context => resolve (args.contextInterceptor context)

/-- The request bundle `_get` assembles (its `contextInterceptor` is the
identity). -/
def Container.mkNextArgs (avoidConstraints isMultiInject : Bool) (targetType : TargetType)
    (id : ServiceId) (key value : Option String) : NextArgs :=
  { avoidConstraints := avoidConstraints
    contextInterceptor := fun context => context
    isMultiInject := isMultiInject
    key := key
    serviceIdentifier := id
    targetType := targetType
    value := value }

/-- `_get`: delegates to the middleware chain when one is installed —
failing when the chain returns an absent value — and otherwise to
`_planAndResolve`. -/
def Container._get (c : Container) (avoidConstraints isMultiInject : Bool)
    (targetType : TargetType) (id : ServiceId) (key value : Option String) :
    Except ContainerError GetResult :=
  match c.middleware with
  | some m =>
    match m (Container.mkNextArgs avoidConstraints isMultiInject targetType id key value) with
    | none => .error .invalidMiddlewareReturn
    | some result => .ok result
  | none => c.planAndResolve (Container.mkNextArgs avoidConstraints isMultiInject targetType id key value)

/-- `get(serviceIdentifier)`. -/
def Container.get (c : Container) (id : ServiceId) : Except ContainerError GetResult :=
  c._get false false .targetVariable id none none

/-- `getTagged(serviceIdentifier, key, value)`. -/
def Container.getTagged (c : Container) (id : ServiceId) (key value : String) :
    Except ContainerError GetResult :=
  c._get false false .targetVariable id (some key) (some value)

/-- `getNamed(serviceIdentifier, named)`. -/
def Container.getNamed (c : Container) (id : ServiceId) (named : String) :
    Except ContainerError GetResult :=
  c.getTagged id namedTag named

/-- `getAll(serviceIdentifier)`: note the source passes `true` for
`avoidConstraints` as well as for `isMultiInject`. -/
def Container.getAll (c : Container) (id : ServiceId) : Except ContainerError GetResult :=
  c._get true true .targetVariable id none none

/-- `getAllTagged(serviceIdentifier, key, value)`. -/
def Container.getAllTagged (c : Container) (id : ServiceId) (key value : String) :
    Except ContainerError GetResult :=
  c._get false true .targetVariable id (some key) (some value)

/-- `getAllNamed(serviceIdentifier, named)`. -/
def Container.getAllNamed (c : Container) (id : ServiceId) (named : String) :
    Except ContainerError GetResult :=
  c.getAllTagged id namedTag named

/-- The bindings the planner selects for a plain `get(id)` request. -/
def Container.selectedForGet (c : Container) (id : ServiceId) : List Binding :=
  getActiveBindings false (createMockRequest id none none) id c

/-- The bindings the planner selects for a `getAll(id)` request (constraint
filtering bypassed). -/
def Container.selectedForGetAll (c : Container) (id : ServiceId) : List Binding :=
  getActiveBindings true (createMockRequest id none none) id c

/-! Registry lemmas. -/

theorem entriesFind_add_same (es : Entries) (id : ServiceId) (b : Binding) :
    entriesFind (addEntries es id b) id = some (((entriesFind es id).getD []) ++ [b]) := by
  induction es with
  | nil => simp [addEntries, entriesFind]
  | cons e rest ih =>
    by_cases h : e.1 = id
    · simp [addEntries, entriesFind, h]
    · simp [addEntries, entriesFind, h, ih]

theorem entriesFind_add_ne (es : Entries) (id id2 : ServiceId) (b : Binding)
    (h : id ≠ id2) :
    entriesFind (addEntries es id b) id2 = entriesFind es id2 := by
  induction es with
  | nil => simp [addEntries, entriesFind, h]
  | cons e rest ih =>
    by_cases he : e.1 = id
    · simp [addEntries, entriesFind, he, h, ih]
    · simp [addEntries, entriesFind, he, ih]

theorem getOrEmpty_add_same (lk : Lookup) (id : ServiceId) (b : Binding) :
    (lk.add id b).getOrEmpty id = lk.getOrEmpty id ++ [b] := by
  simp [Lookup.add, Lookup.getOrEmpty, entriesFind_add_same]

theorem getOrEmpty_add_ne (lk : Lookup) (id id2 : ServiceId) (b : Binding) (h : id ≠ id2) :
    (lk.add id b).getOrEmpty id2 = lk.getOrEmpty id2 := by
  simp [Lookup.add, Lookup.getOrEmpty, entriesFind_add_ne _ _ _ _ h]

theorem hasKey_add_same (lk : Lookup) (id : ServiceId) (b : Binding) :
    (lk.add id b).hasKey id = true := by
  simp [Lookup.add, Lookup.hasKey, entriesFind_add_same]

theorem entriesFind_removeAllKey (es : Entries) (id : ServiceId) :
    entriesFind (es.filter (fun e => !decide (e.1 = id))) id = none := by
  induction es with
  | nil => simp [entriesFind]
  | cons e rest ih =>
    by_cases h : e.1 = id
    · simpa [List.filter_cons, h] using ih
    · simpa [List.filter_cons, h, entriesFind] using ih

theorem get_of_hasKey_false (lk : Lookup) (id : ServiceId) (h : lk.hasKey id = false) :
    lk.get id = .error (.notFound id) := by
  unfold Lookup.get
  unfold Lookup.hasKey at h
  cases hf : entriesFind lk.entries id with
  | none => rfl
  | some l => rw [hf] at h; simp at h

theorem binding_clone_id (b : Binding) : b.clone = b := rfl

theorem map_clone_eq (l : List Binding) : l.map Binding.clone = l := by
  induction l with
  | nil => rfl
  | cons b rest ih => simp [ih, binding_clone_id]

theorem lookup_clone_id (lk : Lookup) : lk.clone = lk := by
  cases lk with
  | mk es => simp [Lookup.clone, map_clone_eq]

theorem resolveAll_length (l : List Binding) (vs : List Value)
    (h : resolveAll l = .ok vs) : vs.length = l.length := by
  induction l generalizing vs with
  | nil =>
    simp [resolveAll] at h
    simp [← h]
  | cons b rest ih =>
    unfold resolveAll at h
    cases hb : resolveBinding b with
    | error e => rw [hb] at h; simp at h
    | ok v =>
      rw [hb] at h
      cases hr : resolveAll rest with
      | error e => rw [hr] at h; simp at h
      | ok ws =>
        rw [hr] at h
        simp at h
        simp [← h, ih ws hr]

/-! Planner-walk lemmas. -/

theorem getActiveBindings_root (a : Bool) (t : MockRequest) (id : ServiceId)
    (o : ContainerOptions) (d : Lookup) (s : List Snapshot) (m : Option Middleware) :
    getActiveBindings a t id (.mk o d s m none) = localMatches d a t id := rfl

theorem getActiveBindings_child (a : Bool) (t : MockRequest) (id : ServiceId)
    (o : ContainerOptions) (d : Lookup) (s : List Snapshot) (m : Option Middleware)
    (p : Container) :
    getActiveBindings a t id (.mk o d s m (some p))
      = if (localMatches d a t id).isEmpty then getActiveBindings a t id p
        else localMatches d a t id := rfl

theorem noMatchInChain_root (a : Bool) (t : MockRequest) (id : ServiceId)
    (o : ContainerOptions) (d : Lookup) (s : List Snapshot) (m : Option Middleware) :
    noMatchInChain a t id (.mk o d s m none) = (localMatches d a t id).isEmpty := rfl

theorem noMatchInChain_child (a : Bool) (t : MockRequest) (id : ServiceId)
    (o : ContainerOptions) (d : Lookup) (s : List Snapshot) (m : Option Middleware)
    (p : Container) :
    noMatchInChain a t id (.mk o d s m (some p))
      = ((localMatches d a t id).isEmpty && noMatchInChain a t id p) := rfl

theorem getActiveBindings_eq_nil_iff (a : Bool) (t : MockRequest) (id : ServiceId) :
    ∀ c : Container, (getActiveBindings a t id c = [] ↔ noMatchInChain a t id c = true)
  | .mk o d s m none => by
    rw [getActiveBindings_root, noMatchInChain_root]
    simp [List.isEmpty_iff]
  | .mk o d s m (some p) => by
    have ih := getActiveBindings_eq_nil_iff a t id p
    rw [getActiveBindings_child, noMatchInChain_child]
    by_cases h : (localMatches d a t id).isEmpty
    · simp [h, ih]
    · simp only [h, if_false, Bool.false_and]
      simp [List.isEmpty_iff] at h
      simp [h]

/-- Without a middleware chain, `_get` is planning followed by resolution. -/
theorem get_path (c : Container) (hmw : c.middleware = none) (a i : Bool)
    (tt : TargetType) (id : ServiceId) (k v : Option String) :
    c._get a i tt id k v =
      match plan c i tt id k v a with
      | .error e => .error e
      | .ok context => resolve context := by
  unfold Container._get Container.planAndResolve Container.mkNextArgs
  rw [hmw]

theorem plan_of_empty (c : Container) (i : Bool) (tt : TargetType) (id : ServiceId)
    (k v : Option String) (a : Bool)
    (h : getActiveBindings a (createMockRequest id k v) id c = []) :
    plan c i tt id k v a =
      if i && registeredInChain id c then .ok ⟨i, []⟩ else .error (.notFound id) := by
  simp [plan, h]

theorem selectedForGet_def (c : Container) (id : ServiceId) :
    c.selectedForGet id = getActiveBindings false (createMockRequest id none none) id c := rfl

theorem selectedForGetAll_def (c : Container) (id : ServiceId) :
    c.selectedForGetAll id = getActiveBindings true (createMockRequest id none none) id c := rfl

theorem plan_of_nonempty (c : Container) (i : Bool) (tt : TargetType) (id : ServiceId)
    (k v : Option String) (a : Bool) (matched : List Binding)
    (h : getActiveBindings a (createMockRequest id k v) id c = matched)
    (hne : matched ≠ []) :
    plan c i tt id k v a =
      if 1 < matched.length && !i then .error (.ambiguousMatch id)
      else .ok ⟨i, matched⟩ := by
  simp only [plan]
  rw [h, if_neg]
  simp [List.isEmpty_iff, hne]

theorem resolve_one (b : Binding) :
    resolve ⟨false, [b]⟩ =
      match resolveBinding b with
      | .error e => .error e
      | .ok v => .ok (.single v) := by
  unfold resolve resolveAll
  cases hb : resolveBinding b <;> simp [resolveAll]

theorem get_of_empty (c : Container) (id : ServiceId) (hmw : c.middleware = none)
    (h : c.selectedForGet id = []) : c.get id = .error (.notFound id) := by
  rw [Container.get, get_path c hmw, plan_of_empty c false .targetVariable id none none false h]
  simp

theorem get_of_single (c : Container) (id : ServiceId) (b : Binding)
    (hmw : c.middleware = none) (h : c.selectedForGet id = [b]) :
    c.get id =
      match resolveBinding b with
      | .error e => .error e
      | .ok v => .ok (.single v) := by
  rw [Container.get, get_path c hmw,
    plan_of_nonempty c false .targetVariable id none none false [b] h (by simp)]
  simp [resolve_one]

theorem get_of_many (c : Container) (id : ServiceId) (b b2 : Binding) (rest : List Binding)
    (hmw : c.middleware = none) (h : c.selectedForGet id = b :: b2 :: rest) :
    c.get id = .error (.ambiguousMatch id) := by
  rw [Container.get, get_path c hmw,
    plan_of_nonempty c false .targetVariable id none none false (b :: b2 :: rest) h (by simp)]
  rw [if_pos]
  simp [List.length_cons]

/-- C2: with no middleware installed, `get(id)` fails with the ambiguous
match error exactly when the planner selects more than one binding for the
request; it fails with the not-found error exactly when zero bindings match
at every level of the parent chain; and when exactly one binding is
selected (and it is resolvable) it returns that binding's resolved
value. -/
theorem get_cardinality (c : Container) (id : ServiceId) (hmw : c.middleware = none) :
    (c.get id = .error (.ambiguousMatch id) ↔ 1 < (c.selectedForGet id).length) ∧
    (c.get id = .error (.notFound id) ↔
      noMatchInChain false (createMockRequest id none none) id c = true) ∧
    (∀ b v, c.selectedForGet id = [b] → resolveBinding b = .ok v →
      c.get id = .ok (.single v)) := by
  have hnomatch := getActiveBindings_eq_nil_iff false (createMockRequest id none none) id c
  rcases hsel : c.selectedForGet id with _ | ⟨b, _ | ⟨b2, rest⟩⟩
  · have hgv := get_of_empty c id hmw hsel
    rw [selectedForGet_def] at hsel
    refine ⟨by simp [hgv], by simp [hgv, hnomatch.mp hsel], ?_⟩
    intro b v hcontr
    simp at hcontr
  · have hgv := get_of_single c id b hmw hsel
    rw [selectedForGet_def] at hsel
    have hnm : noMatchInChain false (createMockRequest id none none) id c = false := by
      cases hq : noMatchInChain false (createMockRequest id none none) id c
      · rfl
      · rw [hnomatch.mpr hq] at hsel; simp at hsel
    refine ⟨?_, ?_, ?_⟩
    · cases hb : resolveBinding b with
      | error e =>
        rw [hb] at hgv
        have he : e = .invalidBinding b.serviceIdentifier := by
          unfold resolveBinding at hb
          cases hbs : b.strategy <;> rw [hbs] at hb <;> simp at hb
          exact hb.symm
        simp [hgv, he]
      | ok v => rw [hb] at hgv; simp [hgv]
    · rw [hnm]
      cases hb : resolveBinding b with
      | error e =>
        rw [hb] at hgv
        have he : e = .invalidBinding b.serviceIdentifier := by
          unfold resolveBinding at hb
          cases hbs : b.strategy <;> rw [hbs] at hb <;> simp at hb
          exact hb.symm
        simp [hgv, he]
      | ok v => rw [hb] at hgv; simp [hgv]
    · intro b3 v h3 hv
      have hb3 : b3 = b := by
        simpa using h3.symm
      rw [hb3] at hv
      rw [hv] at hgv
      simpa using hgv
  · have hgv := get_of_many c id b b2 rest hmw hsel
    rw [selectedForGet_def] at hsel
    refine ⟨?_, ?_, ?_⟩
    · rw [hgv]
      simp [List.length_cons]
    · constructor
      · intro hcontr; rw [hgv] at hcontr; simp at hcontr
      · intro hq; rw [hnomatch.mpr hq] at hsel; simp at hsel
    · intro b3 v h3 _
      simp at h3

/-! Concrete containers used by witnesses and counterexamples. -/

/-- A constant-valued binding matching any target. -/
def bindingKatana : Binding :=
  { serviceIdentifier := "Weapon", scope := .transient, strategy := .toConstantValue "katana"
    constraint := .always, moduleId := none }

/-- A second constant-valued binding under the same identifier. -/
def bindingShuriken : Binding :=
  { serviceIdentifier := "Weapon", scope := .transient, strategy := .toConstantValue "shuriken"
    constraint := .always, moduleId := none }

/-- A constant binding guarded by a tag that no untagged request carries. -/
def bindingSamuraiOnly : Binding :=
  { serviceIdentifier := "Weapon", scope := .transient, strategy := .toConstantValue "katana"
    constraint := .taggedWith "faction" "samurai", moduleId := none }

/-- A container with two always-matching bindings under one identifier. -/
def ambContainer : Container :=
  .mk ⟨.transient⟩ ⟨[("Weapon", [bindingKatana, bindingShuriken])]⟩ [] none none

/-- A container whose sole binding carries a non-matching tag constraint. -/
def taggedContainer : Container :=
  .mk ⟨.transient⟩ ⟨[("Weapon", [bindingSamuraiOnly])]⟩ [] none none

/-- C2 witness: the cardinality law evaluated on the two-binding container. -/
theorem get_cardinality_witness :
    (ambContainer.get "Weapon" = .error (.ambiguousMatch "Weapon") ↔
      1 < (ambContainer.selectedForGet "Weapon").length) ∧
    (ambContainer.get "Weapon" = .error (.notFound "Weapon") ↔
      noMatchInChain false (createMockRequest "Weapon" none none) "Weapon" ambContainer
        = true) ∧
    (∀ b v, ambContainer.selectedForGet "Weapon" = [b] → resolveBinding b = .ok v →
      ambContainer.get "Weapon" = .ok (.single v)) :=
  get_cardinality ambContainer "Weapon" rfl

/-- C1 counterexample: `getAll` does not filter by constraints.  The sole
binding under `Weapon` carries a constraint the untagged request fails,
yet `getAll` still returns its value: the returned sequence has length 1
while the count of constraint-matching bindings is 0. -/
theorem getAll_no_constraint_filter_cex :
    taggedContainer.getAll "Weapon" = .ok (.multi ["katana"]) ∧
    ((taggedContainer.bindingDictionary.getOrEmpty "Weapon").filter
      (fun b => b.constraint.eval (createMockRequest "Weapon" none none))).length = 0 :=
  ⟨rfl, rfl⟩

/-- C1 (amended): with no middleware, `getAll(id)` returns the resolved
values of all bindings the chain lookup selects for `id`, in registration
order, with no constraint filtering (the source passes
`avoidConstraints = true`, which bypasses tag filtering); the returned
length equals the count of selected bindings, zero allowed when the
identifier is registered with an empty binding list. -/
theorem getAll_returns_all_selected (c : Container) (id : ServiceId) (vs : List Value)
    (hmw : c.middleware = none)
    (hres : resolveAll (c.selectedForGetAll id) = .ok vs)
    (hreg : registeredInChain id c = true ∨ c.selectedForGetAll id ≠ []) :
    c.getAll id = .ok (.multi vs) ∧ vs.length = (c.selectedForGetAll id).length := by
  have hg := get_path c hmw true true .targetVariable id none none
  have hlen := resolveAll_length _ _ hres
  rw [Container.getAll, hg]
  rcases hsel2 : c.selectedForGetAll id with _ | ⟨b, rest⟩
  · rw [hsel2] at hres hlen
    have hreg2 : registeredInChain id c = true := by
      rcases hreg with h | h
      · exact h
      · exact absurd hsel2 h
    rw [selectedForGetAll_def] at hsel2
    rw [plan_of_empty c true .targetVariable id none none true hsel2, hreg2]
    simp [resolveAll] at hres
    simp [resolve, resolveAll, ← hres, hlen]
  · rw [hsel2] at hres hlen
    rw [selectedForGetAll_def] at hsel2
    rw [plan_of_nonempty c true .targetVariable id none none true (b :: rest) hsel2 (by simp)]
    simp [resolve, hres, hlen]

/-- C1 witness: `getAll` on the two-binding container returns both values
in registration order. -/
theorem getAll_returns_all_selected_witness :
    ambContainer.getAll "Weapon" = .ok (.multi ["katana", "shuriken"]) ∧
    (["katana", "shuriken"] : List Value).length
      = (ambContainer.selectedForGetAll "Weapon").length :=
  getAll_returns_all_selected ambContainer "Weapon" ["katana", "shuriken"] rfl rfl (Or.inl rfl)

/-! Snapshot and restore. -/

/-- A registry mutation available between `snapshot` and `restore`. -/
inductive RegOp where
  | bindOp (id : ServiceId)
  | unbindOp (id : ServiceId)
  | unbindAllOp

/-- Applying one registry mutation; a failing `unbind` throws before
mutating, leaving the container unchanged. -/
def applyRegOp (c : Container) : RegOp → Container
  | .bindOp id => (c.bind id).1
  | .unbindOp id =>
    match c.unbind id with
    | .ok c2 => c2
    | .error _ => c
  | .unbindAllOp => c.unbindAll

theorem withDictionary_snapshots (c : Container) (d : Lookup) :
    (c.withDictionary d).snapshots = c.snapshots := by
  cases c; rfl

theorem applyRegOp_snapshots (c : Container) (op : RegOp) :
    (applyRegOp c op).snapshots = c.snapshots := by
  cases op with
  | bindOp id => simp [applyRegOp, Container.bind, withDictionary_snapshots]
  | unbindOp id =>
    simp only [applyRegOp]
    cases h : c.unbind id with
    | ok c2 =>
      unfold Container.unbind at h
      cases hr : c.bindingDictionary.remove id with
      | ok d =>
        rw [hr] at h
        simp at h
        rw [← h]
        exact withDictionary_snapshots c d
      | error e => rw [hr] at h; simp at h
    | error e => rfl
  | unbindAllOp => simp [applyRegOp, Container.unbindAll, withDictionary_snapshots]

theorem foldl_applyRegOp_snapshots (ops : List RegOp) :
    ∀ c : Container, (ops.foldl applyRegOp c).snapshots = c.snapshots := by
  induction ops with
  | nil => intro c; rfl
  | cons op rest ih => intro c; rw [List.foldl_cons, ih, applyRegOp_snapshots]

/-- C3: `restore` on an empty snapshot stack fails; and for every container
state, `snapshot()` followed by any sequence of bind/unbind/unbindAll
mutations and then `restore()` succeeds and leaves the binding registry
equal to its state at the moment of the snapshot. -/
theorem snapshot_restore_roundtrip (c : Container) (ops : List RegOp) :
    (c.snapshots = [] → c.restore = .error .noMoreSnapshots) ∧
    ∃ c2, (ops.foldl applyRegOp c.snapshot).restore = .ok c2 ∧
      c2.bindingDictionary = c.bindingDictionary := by
  constructor
  · intro h
    cases c with
    | mk o d s m p =>
      simp [Container.snapshots] at h
      subst h
      rfl
  · cases c with
    | mk o d s m p =>
      have hs := foldl_applyRegOp_snapshots ops
        (Container.snapshot (.mk o d s m p))
      rw [show Container.snapshot (.mk o d s m p)
          = .mk o d (⟨d.clone, m⟩ :: s) m p from rfl] at hs ⊢
      cases hres : ops.foldl applyRegOp (.mk o d (⟨d.clone, m⟩ :: s) m p) with
      | mk o2 d2 s2 m2 p2 =>
        rw [hres] at hs
        simp [Container.snapshots] at hs
        subst hs
        exact ⟨.mk o2 d.clone s m p2, rfl,
          by simp [Container.bindingDictionary, lookup_clone_id]⟩

/-- A freshly constructed default container. -/
def emptyContainer : Container := .mk ⟨.transient⟩ Lookup.empty [] none none

/-- C3 witness: restore on the fresh container's empty stack fails, and a
snapshot survives a bind, an unbind and an unbindAll. -/
theorem snapshot_restore_roundtrip_witness :
    (emptyContainer.restore = .error .noMoreSnapshots) ∧
    ∃ c2, (([RegOp.bindOp "X", RegOp.unbindOp "X", RegOp.unbindAllOp].foldl applyRegOp
        emptyContainer.snapshot)).restore = .ok c2 ∧
      c2.bindingDictionary = emptyContainer.bindingDictionary :=
  ⟨(snapshot_restore_roundtrip emptyContainer []).1 rfl,
   (snapshot_restore_roundtrip emptyContainer
     [RegOp.bindOp "X", RegOp.unbindOp "X", RegOp.unbindAllOp]).2⟩

/-! Module load and unload. -/

/-- The module of the C4 scenario: its registry callback binds `X`. -/
def moduleA : ContainerModule := ⟨"module-a", ["X"]⟩

/-- C4: evaluation of the code at the claim's failing input.  After
`load(moduleA)` registered `X` tagged with the module's id, `unload(moduleA)`
does remove that binding (the list under `X` becomes empty), but a
subsequent `isBound "X"` still returns `true`: `removeByCondition` empties
the key's list without deleting the key, and `isBound` delegates to
`hasKey`, which only tests key existence.  The claim (and the spec's own
testable property) requires `isBound(X)` to be `false` here. -/
theorem unload_leaves_isBound_true :
    (emptyContainer.load [moduleA]).bindingDictionary.getOrEmpty "X"
      = [{ serviceIdentifier := "X", scope := .transient, strategy := .unconfigured
           constraint := .always, moduleId := some "module-a" }] ∧
    ((emptyContainer.load [moduleA]).unload [moduleA]).bindingDictionary.getOrEmpty "X"
      = [] ∧
    ((emptyContainer.load [moduleA]).unload [moduleA]).isBound "X" = true :=
  ⟨rfl, rfl, rfl⟩

/-! Default scope of `bind`. -/

theorem withDictionary_dict (c : Container) (d : Lookup) :
    (c.withDictionary d).bindingDictionary = d := by
  cases c; rfl

theorem bind_parts (c : Container) (id : ServiceId) :
    (c.bind id).1 = c.withDictionary (c.bindingDictionary.add id (c.bind id).2) := rfl

/-- C5: a binding registered by `bind(id)` is appended to the registry
under its identifier and carries the container's configured default scope:
Transient for a container constructed without options or with defaultScope
Transient, Singleton for one constructed with defaultScope Singleton. -/
theorem bind_uses_default_scope (cNone cTrans cSing : Container) (id : ServiceId)
    (hNone : Container.create none = .ok cNone)
    (hTrans : Container.create (some (.obj (some "Transient"))) = .ok cTrans)
    (hSing : Container.create (some (.obj (some "Singleton"))) = .ok cSing) :
    ((cNone.bind id).2).scope = .transient ∧
    ((cTrans.bind id).2).scope = .transient ∧
    ((cSing.bind id).2).scope = .singleton ∧
    ((cNone.bind id).1).bindingDictionary.getOrEmpty id
      = cNone.bindingDictionary.getOrEmpty id ++ [(cNone.bind id).2] ∧
    ((cSing.bind id).1).bindingDictionary.getOrEmpty id
      = cSing.bindingDictionary.getOrEmpty id ++ [(cSing.bind id).2] := by
  have h1 : cNone = .mk ⟨.transient⟩ Lookup.empty [] none none := by
    have hc : Container.create none
        = .ok (Container.mk ⟨.transient⟩ Lookup.empty [] none none) := rfl
    rw [hc] at hNone
    exact (Except.ok.inj hNone.symm)
  have h2 : cTrans = .mk ⟨.transient⟩ Lookup.empty [] none none := by
    have hc : Container.create (some (.obj (some "Transient")))
        = .ok (Container.mk ⟨.transient⟩ Lookup.empty [] none none) := rfl
    rw [hc] at hTrans
    exact (Except.ok.inj hTrans.symm)
  have h3 : cSing = .mk ⟨.singleton⟩ Lookup.empty [] none none := by
    have hc : Container.create (some (.obj (some "Singleton")))
        = .ok (Container.mk ⟨.singleton⟩ Lookup.empty [] none none) := rfl
    rw [hc] at hSing
    exact (Except.ok.inj hSing.symm)
  subst h1 h2 h3
  refine ⟨rfl, rfl, rfl, ?_, ?_⟩
  · rw [bind_parts, withDictionary_dict, getOrEmpty_add_same]
  · rw [bind_parts, withDictionary_dict, getOrEmpty_add_same]

/-- A container constructed with the Singleton default scope. -/
def singletonContainer : Container := .mk ⟨.singleton⟩ Lookup.empty [] none none

/-- C5 witness: the default-scope law evaluated at identifier `X` on
freshly constructed containers. -/
theorem bind_uses_default_scope_witness :
    ((emptyContainer.bind "X").2).scope = .transient ∧
    ((emptyContainer.bind "X").2).scope = .transient ∧
    ((singletonContainer.bind "X").2).scope = .singleton ∧
    ((emptyContainer.bind "X").1).bindingDictionary.getOrEmpty "X"
      = emptyContainer.bindingDictionary.getOrEmpty "X" ++ [(emptyContainer.bind "X").2] ∧
    ((singletonContainer.bind "X").1).bindingDictionary.getOrEmpty "X"
      = singletonContainer.bindingDictionary.getOrEmpty "X"
        ++ [(singletonContainer.bind "X").2] :=
  bind_uses_default_scope emptyContainer emptyContainer singletonContainer "X" rfl rfl rfl

/-! Merge. -/

theorem entriesFind_none_of_not_mem (es : Entries) (id : ServiceId)
    (h : id ∉ es.map Prod.fst) : entriesFind es id = none := by
  induction es with
  | nil => rfl
  | cons e rest ih =>
    rw [List.map_cons, List.mem_cons, not_or] at h
    rw [entriesFind, if_neg (fun hc => h.1 hc.symm)]
    exact ih h.2

theorem addList_getOrEmpty_same (l : List Binding) (k : ServiceId) :
    ∀ d : Lookup, (∀ b ∈ l, b.serviceIdentifier = k) →
    (l.foldl (fun d2 b => d2.add b.serviceIdentifier b.clone) d).getOrEmpty k
      = d.getOrEmpty k ++ l.map Binding.clone := by
  induction l with
  | nil => intro d _; simp
  | cons b rest ih =>
    intro d h
    have hb : b.serviceIdentifier = k := h b (by simp)
    rw [List.foldl_cons, ih _ (fun b2 hb2 => h b2 (by simp [hb2])), hb,
      getOrEmpty_add_same]
    simp

theorem addList_getOrEmpty_ne (l : List Binding) (k k2 : ServiceId) (hne : k ≠ k2) :
    ∀ d : Lookup, (∀ b ∈ l, b.serviceIdentifier = k) →
    (l.foldl (fun d2 b => d2.add b.serviceIdentifier b.clone) d).getOrEmpty k2
      = d.getOrEmpty k2 := by
  induction l with
  | nil => intro d _; rfl
  | cons b rest ih =>
    intro d h
    have hb : b.serviceIdentifier = k := h b (by simp)
    rw [List.foldl_cons, ih _ (fun b2 hb2 => h b2 (by simp [hb2])), hb,
      getOrEmpty_add_ne _ _ _ _ hne]

theorem copyEntries_getOrEmpty (es : Entries) (id : ServiceId) :
    ∀ d : Lookup,
    (∀ e ∈ es, ∀ b ∈ e.2, b.serviceIdentifier = e.1) →
    (es.map Prod.fst).Nodup →
    (es.foldl (fun dest e => e.2.foldl (fun d2 b => d2.add b.serviceIdentifier b.clone) dest)
        d).getOrEmpty id
      = d.getOrEmpty id ++ ((entriesFind es id).getD []).map Binding.clone := by
  induction es with
  | nil => intro d _ _; simp [entriesFind]
  | cons e rest ih =>
    intro d hw hk
    have hwe : ∀ b ∈ e.2, b.serviceIdentifier = e.1 := hw e (by simp)
    have hwr : ∀ e2 ∈ rest, ∀ b ∈ e2.2, b.serviceIdentifier = e2.1 :=
      fun e2 he2 => hw e2 (by simp [he2])
    rw [List.map_cons] at hk
    have hkr := hk.of_cons
    have hkh : e.1 ∉ rest.map Prod.fst := by
      have := List.nodup_cons.mp hk
      exact this.1
    rw [List.foldl_cons, ih _ hwr hkr]
    by_cases hid : e.1 = id
    · rw [← hid, entriesFind_none_of_not_mem rest e.1 hkh,
        addList_getOrEmpty_same e.2 e.1 d hwe]
      rw [entriesFind, if_pos rfl]
      simp
    · rw [addList_getOrEmpty_ne e.2 e.1 id hid d hwe]
      rw [entriesFind, if_neg hid]

theorem copyDictionary_getOrEmpty (o d : Lookup) (id : ServiceId)
    (hw : o.wellKeyed) (hk : o.keys.Nodup) :
    (copyDictionary o d).getOrEmpty id
      = d.getOrEmpty id ++ (o.getOrEmpty id).map Binding.clone := by
  cases o with
  | mk es => exact copyEntries_getOrEmpty es id d hw hk

/-- C6: for well-formed source registries (no duplicate keys, every binding
stored under its own identifier), the merged container's registry holds,
under every identifier, the clones of the first container's bindings for
that identifier followed by the clones of the second container's, each in
registration order; the sources are only read, the copies go into the
fresh destination registry. -/
theorem merge_concatenates (c1 c2 : Container) (id : ServiceId)
    (hk1 : c1.bindingDictionary.keys.Nodup) (hw1 : c1.bindingDictionary.wellKeyed)
    (hk2 : c2.bindingDictionary.keys.Nodup) (hw2 : c2.bindingDictionary.wellKeyed) :
    (Container.merge c1 c2).bindingDictionary.getOrEmpty id
      = (c1.bindingDictionary.getOrEmpty id).map Binding.clone
        ++ (c2.bindingDictionary.getOrEmpty id).map Binding.clone := by
  show (copyDictionary c2.bindingDictionary
      (copyDictionary c1.bindingDictionary Lookup.empty)).getOrEmpty id = _
  rw [copyDictionary_getOrEmpty _ _ _ hw2 hk2, copyDictionary_getOrEmpty _ _ _ hw1 hk1]
  rfl

/-- C6 witness: merging the two-binding container with the tagged one. -/
theorem merge_concatenates_witness :
    (Container.merge ambContainer taggedContainer).bindingDictionary.getOrEmpty "Weapon"
      = (ambContainer.bindingDictionary.getOrEmpty "Weapon").map Binding.clone
        ++ (taggedContainer.bindingDictionary.getOrEmpty "Weapon").map Binding.clone :=
  merge_concatenates ambContainer taggedContainer "Weapon"
    (by decide) (by unfold Lookup.wellKeyed; decide)
    (by decide) (by unfold Lookup.wellKeyed; decide)

/-! Unbind, middleware, existence probes, options validation. -/

/-- C7: `unbind` on an identifier with no registry entry fails with the
cannot-unbind error naming the identifier (the error kind the spec's error
model classifies as NotFoundError for an absent unbind target); and after
`bind(X)` followed by `unbind(X)`, `isBound(X)` is false. -/
theorem unbind_contract (c : Container) (id : ServiceId) :
    (c.bindingDictionary.hasKey id = false →
      c.unbind id = .error (.cannotUnbind id)) ∧
    ∃ c2, ((c.bind id).1).unbind id = .ok c2 ∧ c2.isBound id = false := by
  constructor
  · intro h
    unfold Container.unbind Lookup.remove
    rw [h]
    simp
  · have hk : ((c.bind id).1).bindingDictionary.hasKey id = true := by
      rw [bind_parts, withDictionary_dict]
      exact hasKey_add_same _ _ _
    unfold Container.unbind Lookup.remove
    rw [hk]
    simp only [if_true]
    refine ⟨_, rfl, ?_⟩
    rw [Container.isBound, withDictionary_dict]
    simp [Lookup.hasKey, entriesFind_removeAllKey]

/-- C7 witness: unbinding the never-registered `X` on the fresh container
fails, and bind-then-unbind leaves `X` unbound. -/
theorem unbind_contract_witness :
    (emptyContainer.unbind "X" = .error (.cannotUnbind "X")) ∧
    ∃ c2, ((emptyContainer.bind "X").1).unbind "X" = .ok c2 ∧ c2.isBound "X" = false :=
  ⟨(unbind_contract emptyContainer "X").1 rfl, (unbind_contract emptyContainer "X").2⟩

/-- C8: on any get-style call routed through an installed middleware chain,
an absent (`null`/`undefined`) chain return fails the call with the
invalid-middleware-return error, and a present chain return is the call's
result. -/
theorem middleware_return_contract (c : Container) (m : Middleware) (a i : Bool)
    (tt : TargetType) (id : ServiceId) (k v : Option String)
    (hmw : c.middleware = some m) :
    (m (Container.mkNextArgs a i tt id k v) = none →
      c._get a i tt id k v = .error .invalidMiddlewareReturn) ∧
    (∀ r, m (Container.mkNextArgs a i tt id k v) = some r →
      c._get a i tt id k v = .ok r) := by
  unfold Container._get
  rw [hmw]
  constructor
  · intro h
    show (match m (Container.mkNextArgs a i tt id k v) with
      | none => Except.error ContainerError.invalidMiddlewareReturn
      | some result => Except.ok result) = Except.error ContainerError.invalidMiddlewareReturn
    rw [h]
  · intro r h
    show (match m (Container.mkNextArgs a i tt id k v) with
      | none => Except.error ContainerError.invalidMiddlewareReturn
      | some result => Except.ok result) = Except.ok r
    rw [h]

/-- A container whose installed middleware chain returns an absent value. -/
def mwNoneContainer : Container :=
  .mk ⟨.transient⟩ Lookup.empty [] (some (fun _ => none)) none

/-- A container whose installed middleware chain returns a constant. -/
def mwConstContainer : Container :=
  .mk ⟨.transient⟩ Lookup.empty [] (some (fun _ => some (.single "fromMiddleware"))) none

/-- C8 witness: the two middleware outcomes evaluated on concrete chains. -/
theorem middleware_return_contract_witness :
    (mwNoneContainer._get false false .targetVariable "X" none none
      = .error .invalidMiddlewareReturn) ∧
    (mwConstContainer._get false false .targetVariable "X" none none
      = .ok (.single "fromMiddleware")) :=
  ⟨(middleware_return_contract mwNoneContainer (fun _ => none)
      false false .targetVariable "X" none none rfl).1 rfl,
   (middleware_return_contract mwConstContainer (fun _ => some (.single "fromMiddleware"))
      false false .targetVariable "X" none none rfl).2 (.single "fromMiddleware") rfl⟩

/-- C9: on a container whose local registry has no entry for the
identifier, `isBoundTagged` (and hence `isBoundNamed`) propagates the
registry lookup's NotFoundError instead of returning false, because it
fetches the binding list with the failing `Lookup.get` rather than the
never-failing `hasKey`. -/
theorem isBoundTagged_propagates_notFound (c : Container) (id : ServiceId)
    (key value : String) (h : c.bindingDictionary.hasKey id = false) :
    c.isBoundTagged id key value = .error (.notFound id) ∧
    c.isBoundNamed id value = .error (.notFound id) := by
  have hg := get_of_hasKey_false c.bindingDictionary id h
  constructor
  · unfold Container.isBoundTagged
    rw [hg]
  · unfold Container.isBoundNamed Container.isBoundTagged
    rw [hg]

/-- C9 witness: the tagged and named probes on the fresh container. -/
theorem isBoundTagged_propagates_notFound_witness :
    (emptyContainer.isBoundTagged "X" "faction" "samurai" = .error (.notFound "X")) ∧
    (emptyContainer.isBoundNamed "X" "samurai" = .error (.notFound "X")) :=
  isBoundTagged_propagates_notFound emptyContainer "X" "faction" "samurai" rfl

/-- C10: constructing with an options argument succeeds exactly when the
argument is an object whose `defaultScope` field is exactly the Singleton
or Transient enum value — a non-object argument and an object omitting
`defaultScope` are rejected — while constructing with no argument succeeds
with default scope Transient. -/
theorem create_options_validation :
    (∃ c, Container.create none = .ok c ∧ c.options.defaultScope = .transient) ∧
    (Container.create (some .notAnObject) = .error .optionsMustBeObject) ∧
    (Container.create (some (.obj none)) = .error .optionsInvalidDefaultScope) ∧
    (∀ s, (∃ c, Container.create (some (.obj (some s))) = .ok c)
        ↔ (s = "Singleton" ∨ s = "Transient")) := by
  refine ⟨⟨emptyContainer, rfl, rfl⟩, rfl, rfl, ?_⟩
  intro s
  constructor
  · rintro ⟨c, hc⟩
    by_cases h1 : s = "Singleton"
    · exact Or.inl h1
    · by_cases h2 : s = "Transient"
      · exact Or.inr h2
      · rw [show Container.create (some (.obj (some s)))
            = .error .optionsInvalidDefaultScope by
          simp only [Container.create]
          rw [if_neg h1, if_neg h2]] at hc
        exact absurd hc (by simp)
  · rintro (h | h) <;> subst h
    · exact ⟨_, rfl⟩
    · exact ⟨_, rfl⟩

end Inversify
